import Mathlib

/-!
# Verification of the orthocontrol volume latching and synchronization core

Shallow embedding of the latch state machine, the target volume register,
the synchronization worker and the legacy throttle/debounce guard of
`orthocontrol.py`, together with theorems settling the specification
claims about them.

Times are modelled in integer milliseconds (the source uses seconds as
floats: `SYNC_INTERVAL = 0.25`, `RATE_LIMIT_BACKOFF = 10.0`; comparisons
are scale invariant).  All integer volume arithmetic is exact.
-/

namespace Orthocontrol

/-- Tolerance constant `LATCH_TOLERANCE_PERCENT = 3` (orthocontrol.py line 22). -/
def LATCH_TOLERANCE_PERCENT : ℕ := 3

/-- Interval constant `SYNC_INTERVAL = 0.25` seconds, modelled as 250 ms (line 341). -/
def SYNC_INTERVAL : ℕ := 250

/-- Backoff constant `RATE_LIMIT_BACKOFF = 10.0` seconds, modelled as 10000 ms (line 342). -/
def RATE_LIMIT_BACKOFF : ℕ := 10000

/-- The module-level mutable state touched by the input path:
`actual_app_volume_on_connect` (line 25), `is_latched` (line 26) and the
shared target register `target_volume` (line 32). -/
structure InputState where
  actual_app_volume_on_connect : Option ℕ
  is_latched : Bool
  target_volume : Option ℕ
deriving DecidableEq

/-- Percentage mapping `remote_value_percent = int((velocity / 127.0) * 100)` (line 400).
Python `int` truncates toward zero; for `velocity : ℕ` the float
computation is exact enough that truncation equals the rational floor,
which for naturals is `velocity * 100 / 127`. -/
def remote_value_percent (velocity : ℕ) : ℕ :=
  velocity * 100 / 127

/-- Register write `set_volume` (lines 304-311): overwrites the shared target register. -/
def set_volume (s : InputState) (v : ℕ) : InputState :=
  { s with target_volume := some v }

/-- The `message_type == 176` body of `midi_callback` (lines 399-420),
acting on an already-computed percentage `v`: the latch state machine.
Returns the new state and the value passed through to the register
(`none` when the reading is discarded). -/
def latch_step (s : InputState) (v : ℕ) : InputState × Option ℕ :=
  if s.is_latched = false then
    match s.actual_app_volume_on_connect with
    | some r =>
        if Int.natAbs ((v : ℤ) - (r : ℤ)) ≤ LATCH_TOLERANCE_PERCENT then
          (set_volume { s with is_latched := true } v, some v)
        else
          (s, none)
    | none => (set_volume { s with is_latched := true } v, some v)
  else
    (set_volume s v, some v)

/-- Observable actions of the system: an actuator set-volume call issued
by the worker (the argument of `set_spotify_volume_api`), or a play/pause
toggle issued by the input path. -/
inductive Effect where
  | setVolumeApiCall (v : ℕ)
  | togglePlayPause
deriving DecidableEq

/-- Callback `midi_callback` (lines 387-424) on one MIDI message
`(message_type, note, velocity)`.  Type 176 runs the latch machine on
`remote_value_percent velocity`; type 144 toggles play/pause; anything
else is ignored. -/
def midi_callback (s : InputState) (message_type note velocity : ℕ) :
    InputState × List Effect :=
  if message_type = 176 then
    ((latch_step s (remote_value_percent velocity)).1, [])
  else if message_type = 144 then
    (s, [Effect.togglePlayPause])
  else
    (s, [])

/-- Outcome of one Python call into the Spotify client: normal return,
`SpotifyException` (with its optional `http_status`), or some other
exception. -/
inductive PyOutcome where
  | ok
  | spotifyExc (status : Option ℕ)
  | otherExc
deriving DecidableEq

/-- Outcome of the nested device-transfer fallback block inside
`set_spotify_volume_api` (lines 278-298): it returned `True`, fell
through to `return False`, raised a `SpotifyException` (caught as
`transfer_e`), or raised some other exception (which propagates). -/
inductive FallbackOutcome where
  | retTrue
  | fallThrough
  | spotifyRaised
  | otherRaised
deriving DecidableEq

/-- How a call to `set_spotify_volume_api` terminates as seen by its
caller: a returned boolean, a propagated `SpotifyException` (with
optional `http_status`), or a propagated other exception. -/
inductive CallResult where
  | returned (b : Bool)
  | raisedSpotify (status : Option ℕ)
  | raisedOther
deriving DecidableEq

/-- Actuator call `set_spotify_volume_api` (lines 259-302).  `sp_some` is the truthiness
of the global client `sp`; `volCall` is the outcome of the initial
`sp.volume(clamped_volume)`; `fb` is the outcome of the fallback block
run inside the `except SpotifyException` handler.  The outer
`except Exception` returns `False`; an exception raised inside the
`except SpotifyException` handler that is itself not caught there
propagates.  Consequently this function never propagates a
`SpotifyException` to its caller. -/
def set_spotify_volume_api (sp_some : Bool) (volume_percent : ℕ)
    (volCall : PyOutcome) (fb : FallbackOutcome) : CallResult :=
  if sp_some = false then CallResult.returned false
  else
    let _clamped_volume := max 0 (min 100 volume_percent)
    match volCall with
    | PyOutcome.ok => CallResult.returned true
    | PyOutcome.otherExc => CallResult.returned false
    | PyOutcome.spotifyExc _ =>
        match fb with
        | FallbackOutcome.retTrue => CallResult.returned true
        | FallbackOutcome.fallThrough => CallResult.returned false
        | FallbackOutcome.spotifyRaised => CallResult.returned false
        | FallbackOutcome.otherRaised => CallResult.raisedOther

/-- The worker's private state (locals of `volume_sync_worker`,
lines 337-339). -/
structure WorkerState where
  last_synced_volume : Option ℕ
  last_sync_time : ℕ
  rate_limited_until : ℕ
deriving DecidableEq

/-- Fresh worker locals: `last_synced_volume = None`, `last_sync_time = 0`,
`rate_limited_until = 0`. -/
def workerInit : WorkerState :=
  { last_synced_volume := none, last_sync_time := 0, rate_limited_until := 0 }

/-- Record of one set-volume call issued by the worker: the cycle time,
the target value passed to `set_spotify_volume_api`, and whether the call
returned `True`. -/
structure CallRec where
  time : ℕ
  value : ℕ
  ok : Bool
deriving DecidableEq

/-- One iteration of the `while not stop_sync_thread` loop body of
`volume_sync_worker` (lines 346-382): skip while rate limited, skip
inside the sync interval, snapshot the target, skip when unset or equal
to `last_synced_volume`, otherwise call `set_spotify_volume_api` (only
when `sp` is truthy) and update state per the outcome.  The
`except SpotifyException ... http_status == 429` handler of the source
(lines 371-376) is embedded faithfully even though
`set_spotify_volume_api` can never produce `raisedSpotify`. -/
def volume_sync_cycle (w : WorkerState) (target : Option ℕ) (now : ℕ)
    (sp_some : Bool) (volCall : PyOutcome) (fb : FallbackOutcome) :
    WorkerState × Option CallRec :=
  if now < w.rate_limited_until then (w, none)
  else if now - w.last_sync_time < SYNC_INTERVAL then (w, none)
  else
    match target with
    | none => (w, none)
    | some t =>
        if some t = w.last_synced_volume then (w, none)
        else if sp_some then
          match set_spotify_volume_api sp_some t volCall fb with
          | CallResult.returned true =>
              ({ w with last_synced_volume := some t, last_sync_time := now },
               some ⟨now, t, true⟩)
          | CallResult.returned false => (w, some ⟨now, t, false⟩)
          | CallResult.raisedSpotify st =>
              if st = some 429 then
                ({ w with rate_limited_until := now + RATE_LIMIT_BACKOFF },
                 some ⟨now, t, false⟩)
              else (w, some ⟨now, t, false⟩)
          | CallResult.raisedOther => (w, some ⟨now, t, false⟩)
        else (w, none)

/-- Environment inputs to one worker cycle: the wall-clock time, the
snapshot the cycle would read from the target register, the truthiness of
`sp`, and the outcomes of the Spotify calls should a set-volume call be
issued. -/
structure CycleInput where
  now : ℕ
  target : Option ℕ
  sp_some : Bool
  volCall : PyOutcome
  fb : FallbackOutcome
deriving DecidableEq

/-- Run one cycle from a `CycleInput`. -/
def run_cycle (w : WorkerState) (c : CycleInput) : WorkerState × Option CallRec :=
  volume_sync_cycle w c.target c.now c.sp_some c.volCall c.fb

/-- Run the worker over a list of cycle inputs, collecting the issued
set-volume calls in order. -/
def worker_run (w : WorkerState) : List CycleInput → WorkerState × List CallRec
  | [] => (w, [])
  | c :: cs =>
      let step := run_cycle w c
      let rest := worker_run step.1 cs
      (rest.1, step.2.toList ++ rest.2)

/-- The worker loop with its stop flag: each element carries the value of
`stop_sync_thread` observed at the loop head.  Returns the final state,
the calls issued, and the number of iterations executed. -/
def worker_loop (w : WorkerState) :
    List (Bool × CycleInput) → WorkerState × List CallRec × ℕ
  | [] => (w, [], 0)
  | (stop, c) :: rest =>
      if stop then (w, [], 0)
      else
        let step := run_cycle w c
        let rec_ := worker_loop step.1 rest
        (rec_.1, step.2.toList ++ rec_.2.1, rec_.2.2 + 1)

/-- The connection-setup region of `main` run on every successful opening
of the MIDI port (lines 512-530): sample Spotify then Music, but assign
`actual_app_volume_on_connect` only when it is currently `None`
(`if actual_app_volume_on_connect is None`, lines 516 and 522); reset
`is_latched` to `False` (line 530).  The shared `target_volume` register
is not touched by this region. -/
def connection_setup (g : InputState) (spotify_sample music_sample : Option ℕ) :
    InputState :=
  let a1 :=
    match spotify_sample with
    | some v =>
        match g.actual_app_volume_on_connect with
        | none => some v
        | some a => some a
    | none => g.actual_app_volume_on_connect
  let a2 :=
    match music_sample with
    | some v =>
        match a1 with
        | none => some v
        | some a => some a
    | none => a1
  { actual_app_volume_on_connect := a2, is_latched := false,
    target_volume := g.target_volume }

/-- Combined system state: the module-level input-path state shared with
the register, plus the worker thread's locals. -/
structure SysState where
  input : InputState
  worker : WorkerState
deriving DecidableEq

/-- Events driving the combined system: a MIDI message delivered to
`midi_callback`, one worker-loop cycle, or a reconnection (the
connection-setup region plus a freshly started worker thread with fresh
locals, lines 512-542). -/
inductive SysEvent where
  | midi (message_type note velocity : ℕ)
  | cycle (now : ℕ) (sp_some : Bool) (volCall : PyOutcome) (fb : FallbackOutcome)
  | reconnect (spotify_sample music_sample : Option ℕ)
deriving DecidableEq

/-- One step of the combined system, returning the observable effects. -/
def sys_step (s : SysState) (e : SysEvent) : SysState × List Effect :=
  match e with
  | SysEvent.midi mt note vel =>
      let r := midi_callback s.input mt note vel
      ({ s with input := r.1 }, r.2)
  | SysEvent.cycle now sp_some volCall fb =>
      let r := volume_sync_cycle s.worker s.input.target_volume now sp_some volCall fb
      ({ s with worker := r.1 },
       match r.2 with
       | some rec_ => [Effect.setVolumeApiCall rec_.value]
       | none => [])
  | SysEvent.reconnect ss ms =>
      ({ input := connection_setup s.input ss ms, worker := workerInit }, [])

/-- Run the combined system over a list of events, collecting effects. -/
def sys_run (s : SysState) : List SysEvent → SysState × List Effect
  | [] => (s, [])
  | e :: es =>
      let step := sys_step s e
      let rest := sys_run step.1 es
      (rest.1, step.2 ++ rest.2)

/-- State of one hardware connection whose reference volume is `ref` and
whose register starts unset, with fresh worker locals. -/
def freshConn (ref : Option ℕ) : SysState :=
  { input := { actual_app_volume_on_connect := ref, is_latched := false,
               target_volume := none },
    worker := workerInit }

/-- The global state at program start (lines 25-35), before any
connection: no reference volume, unlatched, empty register. -/
def programInit : SysState := freshConn none

/-- Parameters of the legacy `throttle_debounce` decorator (lines 73-75).
Times in milliseconds as rationals (the source divides them uniformly by
1000 into float seconds; all comparisons are scale invariant).
`throttle_ms` and `debounce_ms` are kept for fidelity: the wrapper logic
never reads `throttle_ms`, and `debounce_ms` only sets the duration of
the `Timer`, whose firing time is supplied by the environment here. -/
structure ThrottleParams where
  throttle_ms : ℚ
  debounce_ms : ℚ
  first_call_threshold_ms : ℚ
  initial_throttle_ms : ℚ
  max_throttle_ms : ℚ
  backoff_factor : ℚ
deriving DecidableEq

/-- The closure state of one decorated function (lines 96-101):
`last_call_time`, `last_interaction_end_time`, the escalating
`current_throttle_interval`, and whether a debounce `Timer` is pending. -/
structure ThrottleState where
  last_call_time : ℚ
  last_interaction_end_time : ℚ
  current_throttle_interval : ℚ
  debounce_pending : Bool
deriving DecidableEq

/-- Fresh decorator state (lines 96-101): zero times, interval at
`initial_throttle_ms`, no pending timer. -/
def throttleInit (p : ThrottleParams) : ThrottleState :=
  { last_call_time := 0, last_interaction_end_time := 0,
    current_throttle_interval := p.initial_throttle_ms,
    debounce_pending := false }

/-- The `wrapper` body of `throttle_debounce` (lines 104-148) at time
`now`: cancel any pending timer; on a new interaction (gap since the last
execution above `first_call_threshold_ms`) reset the interval and execute
immediately; otherwise execute immediately with backoff escalation
`min (interval * backoff_factor) max_throttle_ms` when the throttle gap
has passed, else schedule a debounce timer.  The boolean reports whether
the wrapped function ran immediately. -/
def wrapper_call (p : ThrottleParams) (s : ThrottleState) (now : ℚ) :
    ThrottleState × Bool :=
  if p.first_call_threshold_ms < now - s.last_interaction_end_time then
    ({ last_call_time := now, last_interaction_end_time := now,
       current_throttle_interval := p.initial_throttle_ms,
       debounce_pending := false }, true)
  else if s.current_throttle_interval < now - s.last_call_time then
    ({ last_call_time := now, last_interaction_end_time := now,
       current_throttle_interval :=
         min (s.current_throttle_interval * p.backoff_factor) p.max_throttle_ms,
       debounce_pending := false }, true)
  else
    ({ s with debounce_pending := true }, false)

/-- The debounced execution `call_it_debounced` (lines 138-144) firing at
time `now`: runs the wrapped function and refreshes the execution times;
the throttle interval is not changed. -/
def timer_fire (s : ThrottleState) (now : ℚ) : ThrottleState :=
  { s with last_call_time := now, last_interaction_end_time := now,
           debounce_pending := false }

/-- Events on one decorated function: a wrapper invocation, or the firing
of a pending debounce timer. -/
inductive ThrottleEvent where
  | call (now : ℚ)
  | fire (now : ℚ)
deriving DecidableEq

/-- Run the guard over a sequence of events; a `fire` with no pending
timer cannot happen and is a no-op. -/
def throttle_run (p : ThrottleParams) (s : ThrottleState) :
    List ThrottleEvent → ThrottleState
  | [] => s
  | ThrottleEvent.call now :: es =>
      throttle_run p (wrapper_call p s now).1 es
  | ThrottleEvent.fire now :: es =>
      throttle_run p (if s.debounce_pending then timer_fire s now else s) es

/-- Run the latch machine over a list of percentage readings, collecting
the values passed through to the register in order. -/
def latch_run (s : InputState) : List ℕ → InputState × List ℕ
  | [] => (s, [])
  | v :: vs =>
      let step := latch_step s v
      let rest := latch_run step.1 vs
      (rest.1, step.2.toList ++ rest.2)

/-- Whether a system event is a reconnection. -/
def is_reconnect : SysEvent → Bool
  | SysEvent.reconnect _ _ => true
  | _ => false

/-- Modelled from the spec (§6 Hardware Event source contract): the
mapping the spec claims for continuous-control values,
`round(value/127 * 100)`, written with rational rounding.  Used only to
compare against `remote_value_percent`, which embeds the source. -/
def spec_round_percent (velocity : ℕ) : ℤ :=
  round ((velocity : ℚ) / 127 * 100)

/-! ## Helper lemmas -/

/-- Case analysis of one worker cycle: either it skips (state unchanged,
no call), or a call is issued at the cycle's time with the snapshot value,
the eligibility conditions all hold, and the state either records a
success or is left unchanged on failure.  In particular
`rate_limited_until` never changes, because `set_spotify_volume_api`
never lets a `SpotifyException` escape to the worker's 429 handler. -/
lemma volume_sync_cycle_spec (w : WorkerState) (target : Option ℕ) (now : ℕ)
    (sp_some : Bool) (volCall : PyOutcome) (fb : FallbackOutcome) :
    volume_sync_cycle w target now sp_some volCall fb = (w, none) ∨
    ∃ t, target = some t ∧ some t ≠ w.last_synced_volume ∧ sp_some = true ∧
      w.last_sync_time + SYNC_INTERVAL ≤ now ∧ ¬ now < w.rate_limited_until ∧
      (volume_sync_cycle w target now sp_some volCall fb =
          ({ w with last_synced_volume := some t, last_sync_time := now },
           some ⟨now, t, true⟩) ∨
        volume_sync_cycle w target now sp_some volCall fb =
          (w, some ⟨now, t, false⟩)) := by
  by_cases h1 : now < w.rate_limited_until
  · left; simp [volume_sync_cycle, h1]
  by_cases h2 : now - w.last_sync_time < SYNC_INTERVAL
  · left; simp [volume_sync_cycle, h1, h2]
  cases htarget : target with
  | none => left; simp [volume_sync_cycle, h1, h2]
  | some t =>
    by_cases he : some t = w.last_synced_volume
    · left; simp [volume_sync_cycle, h1, h2, he]
    cases hsp : sp_some with
    | false => left; simp [volume_sync_cycle, h1, h2, he]
    | true =>
      right
      refine ⟨t, rfl, he, rfl, ?_, h1, ?_⟩
      · simp only [SYNC_INTERVAL] at h2 ⊢
        omega
      rcases volCall with _ | st | _
      · left; simp [volume_sync_cycle, set_spotify_volume_api, h1, h2, he]
      · rcases fb with _ | _ | _ | _
        · left; simp [volume_sync_cycle, set_spotify_volume_api, h1, h2, he]
        · right; simp [volume_sync_cycle, set_spotify_volume_api, h1, h2, he]
        · right; simp [volume_sync_cycle, set_spotify_volume_api, h1, h2, he]
        · right; simp [volume_sync_cycle, set_spotify_volume_api, h1, h2, he]
      · right; simp [volume_sync_cycle, set_spotify_volume_api, h1, h2, he]

/-! ## Claim theorems -/

/-- C3 counter-scenario check is part of the claim; first the general
transition rule.  C3: while unlatched with reference `r`, a reading `v`
latches and is passed through exactly when `|v - r| ≤ TOLERANCE`,
otherwise it is discarded with no state change; with no reference, the
first reading latches immediately; scenario `r = 40`, readings
`[50, 35, 38, 41]` pass through exactly `[38, 41]`. -/
theorem c3_latch_transition :
    (∀ (s : InputState) (v r : ℕ), s.is_latched = false →
      s.actual_app_volume_on_connect = some r →
      Int.natAbs ((v : ℤ) - (r : ℤ)) ≤ LATCH_TOLERANCE_PERCENT →
      latch_step s v =
        ({ s with is_latched := true, target_volume := some v }, some v)) ∧
    (∀ (s : InputState) (v r : ℕ), s.is_latched = false →
      s.actual_app_volume_on_connect = some r →
      LATCH_TOLERANCE_PERCENT < Int.natAbs ((v : ℤ) - (r : ℤ)) →
      latch_step s v = (s, none)) ∧
    (∀ (s : InputState) (v : ℕ), s.is_latched = false →
      s.actual_app_volume_on_connect = none →
      latch_step s v =
        ({ s with is_latched := true, target_volume := some v }, some v)) ∧
    latch_run { actual_app_volume_on_connect := some 40, is_latched := false,
                target_volume := none } [50, 35, 38, 41] =
      ({ actual_app_volume_on_connect := some 40, is_latched := true,
         target_volume := some 41 }, [38, 41]) := by
  refine ⟨?_, ?_, ?_, by decide⟩
  · intro s v r hl hr hle
    simp [latch_step, set_volume, hl, hr, hle]
  · intro s v r hl hr hgt
    simp [latch_step, set_volume, hl, hr, Nat.not_le.mpr hgt]
  · intro s v hl hr
    simp [latch_step, set_volume, hl, hr]

/-- Witness for `c3_latch_transition` at concrete inputs. -/
theorem c3_latch_transition_witness :
    latch_step { actual_app_volume_on_connect := some 40, is_latched := false,
                 target_volume := none } 38 =
      ({ actual_app_volume_on_connect := some 40, is_latched := true,
         target_volume := some 38 }, some 38) ∧
    latch_step { actual_app_volume_on_connect := some 40, is_latched := false,
                 target_volume := none } 50 =
      ({ actual_app_volume_on_connect := some 40, is_latched := false,
         target_volume := none }, none) ∧
    latch_step { actual_app_volume_on_connect := none, is_latched := false,
                 target_volume := none } 20 =
      ({ actual_app_volume_on_connect := none, is_latched := true,
         target_volume := some 20 }, some 20) :=
  ⟨c3_latch_transition.1 _ 38 40 rfl rfl (by decide),
   c3_latch_transition.2.1 _ 50 40 rfl rfl (by decide),
   c3_latch_transition.2.2.1 _ 20 rfl rfl⟩

/-- C10: a note-on message (type 144) toggles play/pause regardless of
the latch state or reference volume, and changes no state. -/
theorem c10_note_on_toggles_play_pause (s : InputState) (note velocity : ℕ) :
    midi_callback s 144 note velocity = (s, [Effect.togglePlayPause]) := rfl

/-- C6 fails on the code: `int((1 / 127.0) * 100)` truncates to `0`,
while the spec's `round(1/127 * 100)` is `1`. -/
theorem c6_counterexample :
    remote_value_percent 1 = 0 ∧ spec_round_percent 1 = 1 ∧ (0 : ℤ) ≠ 1 := by
  refine ⟨rfl, ?_, by decide⟩
  rw [spec_round_percent, round_eq]
  norm_num

/-- C6 amended: the delivered percentage is the floor (Python `int`
truncation) of `value / 127 * 100`, not its rounding; it maps 0-127 into
0-100. -/
theorem c6_truncation_mapping (v : ℕ) :
    remote_value_percent v = Nat.floor ((v : ℚ) / 127 * 100) ∧
    (v ≤ 127 → remote_value_percent v ≤ 100) := by
  constructor
  · have h : ((v : ℚ) / 127 * 100) = ((v * 100 : ℕ) : ℚ) / ((127 : ℕ) : ℚ) := by
      push_cast
      ring
    rw [remote_value_percent, h, Nat.floor_div_nat, Nat.floor_natCast]
  · intro hv
    have h1 : v * 100 ≤ 12700 := by omega
    calc v * 100 / 127 ≤ 12700 / 127 := Nat.div_le_div_right h1
      _ = 100 := by norm_num

/-- Witness for `c6_truncation_mapping` at `v = 64`. -/
theorem c6_truncation_mapping_witness :
    remote_value_percent 64 = Nat.floor ((64 : ℚ) / 127 * 100) ∧
    (64 ≤ 127 → remote_value_percent 64 ≤ 100) :=
  c6_truncation_mapping 64

/-- C4 fails on the code: reconnecting with a stale reference volume 40,
latched, and pending target 77, while the actuator now reports 60,
leaves the reference at 40 (the fresh sample 60 is discarded because
`actual_app_volume_on_connect` is only assigned when `None`) and leaves
the stale pending target 77 in the register. -/
theorem c4_counterexample :
    connection_setup
        { actual_app_volume_on_connect := some 40, is_latched := true,
          target_volume := some 77 } (some 60) none =
      { actual_app_volume_on_connect := some 40, is_latched := false,
        target_volume := some 77 } ∧
    (connection_setup
        { actual_app_volume_on_connect := some 40, is_latched := true,
          target_volume := some 77 } (some 60) none).actual_app_volume_on_connect
      ≠ some 60 ∧
    (connection_setup
        { actual_app_volume_on_connect := some 40, is_latched := true,
          target_volume := some 77 } (some 60) none).target_volume ≠ none := by
  refine ⟨rfl, by decide, by decide⟩

/-- C4 amended: on every successful (re)connection `is_latched` is reset
to false and the worker restarts with fresh locals, but the reference
volume is sampled only when none is currently set — an existing reference
from the initial API fetch or a prior connection persists unchanged — and
the pending target register is not cleared. -/
theorem c4_reconnect_behavior (g : InputState) (ss ms : Option ℕ) :
    (connection_setup g ss ms).is_latched = false ∧
    (connection_setup g ss ms).target_volume = g.target_volume ∧
    (∀ a, g.actual_app_volume_on_connect = some a →
      (connection_setup g ss ms).actual_app_volume_on_connect = some a) ∧
    (g.actual_app_volume_on_connect = none →
      (connection_setup g ss ms).actual_app_volume_on_connect =
        (match ss with | some v => some v | none => ms)) ∧
    (∀ s : SysState, sys_step s (SysEvent.reconnect ss ms) =
      ({ input := connection_setup s.input ss ms, worker := workerInit },
       [])) := by
  refine ⟨rfl, rfl, ?_, ?_, fun s => rfl⟩
  · intro a ha
    cases ss <;> cases ms <;> simp [connection_setup, ha]
  · intro ha
    cases ss <;> cases ms <;> simp [connection_setup, ha]

/-- Witness for `c4_reconnect_behavior`. -/
theorem c4_reconnect_behavior_witness :
    (connection_setup
        { actual_app_volume_on_connect := some 40, is_latched := true,
          target_volume := some 77 } (some 60) none).is_latched = false ∧
    (connection_setup
        { actual_app_volume_on_connect := some 40, is_latched := true,
          target_volume := some 77 } (some 60) none).actual_app_volume_on_connect
      = some 40 :=
  ⟨(c4_reconnect_behavior _ (some 60) none).1,
   (c4_reconnect_behavior _ (some 60) none).2.2.1 40 rfl⟩

/-- Successful set-volume calls in any worker run are spaced by at least
`SYNC_INTERVAL`, and every one of them lies at least `SYNC_INTERVAL`
after the initial `last_sync_time`. -/
lemma worker_run_success_spacing (inputs : List CycleInput) :
    ∀ w : WorkerState,
      List.Pairwise (fun a b : CallRec => a.time + SYNC_INTERVAL ≤ b.time)
        (((worker_run w inputs).2).filter (fun r => r.ok)) ∧
      ∀ r ∈ ((worker_run w inputs).2).filter (fun r => r.ok),
        w.last_sync_time + SYNC_INTERVAL ≤ r.time := by
  induction inputs with
  | nil => intro w; simp [worker_run]
  | cons c cs ih =>
    intro w
    rcases volume_sync_cycle_spec w c.target c.now c.sp_some c.volCall c.fb with
      hskip | ⟨t, ht, hne, hsp, hle, hrl, hsucc | hfail⟩
    · have hrun : worker_run w (c :: cs) = worker_run w cs := by
        simp [worker_run, run_cycle, hskip]
      rw [hrun]
      exact ih w
    · have hrun : worker_run w (c :: cs) = ((worker_run { w with last_synced_volume := some t, last_sync_time := c.now } cs).1, (⟨c.now, t, true⟩ : CallRec) :: (worker_run { w with last_synced_volume := some t, last_sync_time := c.now } cs).2) := by
        simp [worker_run, run_cycle, hsucc]
      rw [hrun]
      have ih' := ih { w with last_synced_volume := some t, last_sync_time := c.now }
      constructor
      · simp only [List.filter_cons, decide_eq_true_eq]
        rw [if_pos trivial]
        rw [List.pairwise_cons]
        refine ⟨?_, ih'.1⟩
        intro b hb
        exact ih'.2 b hb
      · intro r hr
        simp only [List.filter_cons] at hr
        rw [if_pos trivial] at hr
        rcases List.mem_cons.mp hr with hhead | htail
        · rw [hhead]
          exact hle
        · have := ih'.2 r htail
          simp only [SYNC_INTERVAL] at hle this ⊢
          omega
    · have hrun : worker_run w (c :: cs) =
          ((worker_run w cs).1,
           (⟨c.now, t, false⟩ : CallRec) :: (worker_run w cs).2) := by
        simp [worker_run, run_cycle, hfail]
      rw [hrun]
      have hdrop : ((⟨c.now, t, false⟩ : CallRec) ::
          (worker_run w cs).2).filter (fun r => r.ok) =
          ((worker_run w cs).2).filter (fun r => r.ok) := by
        simp [List.filter_cons]
      rw [hdrop]
      exact ih w

/-- C7: a cycle inside the sync interval is skipped with no register read
and no actuator call; a cycle whose snapshot is unset or equals
`last_synced_volume` is skipped with no call; and the successful
set-volume calls of any run are pairwise at least `SYNC_INTERVAL`
apart. -/
theorem c7_sync_interval_discipline :
    (∀ (w : WorkerState) (c : CycleInput),
      c.now - w.last_sync_time < SYNC_INTERVAL → run_cycle w c = (w, none)) ∧
    (∀ (w : WorkerState) (c : CycleInput),
      c.target = none ∨ c.target = w.last_synced_volume →
      run_cycle w c = (w, none)) ∧
    (∀ (w : WorkerState) (inputs : List CycleInput),
      List.Pairwise (fun a b : CallRec => a.time + SYNC_INTERVAL ≤ b.time)
        (((worker_run w inputs).2).filter (fun r => r.ok))) := by
  refine ⟨?_, ?_, fun w inputs => (worker_run_success_spacing inputs w).1⟩
  · intro w c h
    simp [run_cycle, volume_sync_cycle, h]
  · intro w c h
    rcases h with h | h
    · simp [run_cycle, volume_sync_cycle, h]
    · cases htarget : c.target with
      | none => simp [run_cycle, volume_sync_cycle, htarget]
      | some t =>
        rw [htarget] at h
        simp [run_cycle, volume_sync_cycle, htarget, ← h]

/-- Witness for `c7_sync_interval_discipline` at concrete inputs. -/
theorem c7_sync_interval_discipline_witness :
    run_cycle workerInit
        ⟨100, some 50, true, PyOutcome.ok, FallbackOutcome.fallThrough⟩ =
      (workerInit, none) ∧
    run_cycle workerInit
        ⟨1000, none, true, PyOutcome.ok, FallbackOutcome.fallThrough⟩ =
      (workerInit, none) :=
  ⟨c7_sync_interval_discipline.1 workerInit _ (by decide),
   c7_sync_interval_discipline.2.1 workerInit _ (Or.inl rfl)⟩

/-- In any worker run, a call immediately following a successful call
carries a different value; the first call's value differs from the
initial `last_synced_volume`. -/
lemma worker_run_dedup (inputs : List CycleInput) :
    ∀ w : WorkerState,
      List.Chain' (fun a b : CallRec => a.ok = true → b.value ≠ a.value)
        (worker_run w inputs).2 ∧
      ∀ r ∈ ((worker_run w inputs).2).head?, ∀ x : ℕ,
        w.last_synced_volume = some x → r.value ≠ x := by
  induction inputs with
  | nil => intro w; simp [worker_run]
  | cons c cs ih =>
    intro w
    rcases volume_sync_cycle_spec w c.target c.now c.sp_some c.volCall c.fb with
      hskip | ⟨t, ht, hne, hsp, hle, hrl, hsucc | hfail⟩
    · have hrun : worker_run w (c :: cs) = worker_run w cs := by
        simp [worker_run, run_cycle, hskip]
      rw [hrun]
      exact ih w
    · have hrun : worker_run w (c :: cs) = ((worker_run { w with last_synced_volume := some t, last_sync_time := c.now } cs).1, (⟨c.now, t, true⟩ : CallRec) :: (worker_run { w with last_synced_volume := some t, last_sync_time := c.now } cs).2) := by
        simp [worker_run, run_cycle, hsucc]
      rw [hrun]
      have ih' := ih { w with last_synced_volume := some t, last_sync_time := c.now }
      constructor
      · rw [List.chain'_cons']
        refine ⟨?_, ih'.1⟩
        intro b hb _
        exact ih'.2 b hb t rfl
      · intro r hr x hx
        simp only [List.head?_cons, Option.mem_def, Option.some.injEq] at hr
        rw [← hr]
        intro hval
        apply hne
        rw [hx, ← hval]
    · have hrun : worker_run w (c :: cs) =
          ((worker_run w cs).1,
           (⟨c.now, t, false⟩ : CallRec) :: (worker_run w cs).2) := by
        simp [worker_run, run_cycle, hfail]
      rw [hrun]
      constructor
      · rw [List.chain'_cons']
        refine ⟨?_, (ih w).1⟩
        intro b hb hok
        exact absurd hok (by simp)
      · intro r hr x hx
        simp only [List.head?_cons, Option.mem_def, Option.some.injEq] at hr
        rw [← hr]
        intro hval
        apply hne
        rw [hx, ← hval]

/-- C5 fails on the code: a failed call does not update
`last_synced_volume`, so the very same value is sent again in the next
eligible cycle — here two consecutive calls both carry 50. -/
theorem c5_counterexample :
    ((worker_run workerInit
        [⟨1000, some 50, true, PyOutcome.spotifyExc (some 429),
          FallbackOutcome.fallThrough⟩,
         ⟨1300, some 50, true, PyOutcome.ok,
          FallbackOutcome.fallThrough⟩]).2).map (fun r => r.value) =
      [50, 50] ∧
    ¬ List.Chain' (fun a b : CallRec => a.value ≠ b.value)
        (worker_run workerInit
          [⟨1000, some 50, true, PyOutcome.spotifyExc (some 429),
            FallbackOutcome.fallThrough⟩,
           ⟨1300, some 50, true, PyOutcome.ok,
            FallbackOutcome.fallThrough⟩]).2 := by
  have hlist : (worker_run workerInit
      [⟨1000, some 50, true, PyOutcome.spotifyExc (some 429),
        FallbackOutcome.fallThrough⟩,
       ⟨1300, some 50, true, PyOutcome.ok,
        FallbackOutcome.fallThrough⟩]).2 =
      [⟨1000, 50, false⟩, ⟨1300, 50, true⟩] := by decide
  rw [hlist]
  constructor
  · decide
  · simp [List.chain'_cons]

/-- C5 amended: the `lastSyncedVolume` dedup guarantees distinct values
only across a *successful* call — any call immediately following a
successful call carries a different value; after a failed call the same
value is (deliberately) retried. -/
theorem c5_dedup_after_success (w : WorkerState) (inputs : List CycleInput) :
    List.Chain' (fun a b : CallRec => a.ok = true → b.value ≠ a.value)
      (worker_run w inputs).2 :=
  (worker_run_dedup inputs w).1

/-- Witness instantiating `c5_dedup_after_success` on a concrete run with
a successful call followed by another call. -/
theorem c5_dedup_after_success_witness :
    List.Chain' (fun a b : CallRec => a.ok = true → b.value ≠ a.value)
      (worker_run workerInit
        [⟨1000, some 50, true, PyOutcome.ok, FallbackOutcome.fallThrough⟩,
         ⟨1300, some 60, true, PyOutcome.ok,
          FallbackOutcome.fallThrough⟩]).2 :=
  c5_dedup_after_success workerInit _

/-- Iteration/stop structure of the worker loop: the iteration count is
exactly the number of leading cycles whose observed stop flag is false,
and state and calls agree with the unconditioned run over that prefix. -/
lemma worker_loop_stop (inputs : List (Bool × CycleInput)) :
    ∀ w : WorkerState,
      (worker_loop w inputs).2.2 =
        (inputs.takeWhile (fun p => !p.1)).length ∧
      (worker_loop w inputs).1 =
        (worker_run w ((inputs.takeWhile (fun p => !p.1)).map Prod.snd)).1 ∧
      (worker_loop w inputs).2.1 =
        (worker_run w ((inputs.takeWhile (fun p => !p.1)).map Prod.snd)).2 := by
  induction inputs with
  | nil => intro w; simp [worker_loop, worker_run]
  | cons p ps ih =>
    intro w
    rcases p with ⟨stop, c⟩
    cases stop with
    | true => simp [worker_loop, List.takeWhile_cons, worker_run]
    | false =>
      have h := ih (run_cycle w c).1
      simp [worker_loop, List.takeWhile_cons, worker_run, h.1, h.2.1, h.2.2]

/-- C8: a set-volume failure that is not a rate-limit signal leaves the
whole worker state unchanged (no `last_synced_volume`/`last_sync_time`
update, no backoff window), and the loop runs exactly until the stop
flag is observed — never fewer iterations because of failures. -/
theorem c8_failure_and_stop :
    (∀ (w : WorkerState) (c : CycleInput) (w' : WorkerState) (r : CallRec),
      c.volCall ≠ PyOutcome.spotifyExc (some 429) →
      run_cycle w c = (w', some r) → r.ok = false → w' = w) ∧
    (∀ (w : WorkerState) (inputs : List (Bool × CycleInput)),
      (worker_loop w inputs).2.2 =
        (inputs.takeWhile (fun p => !p.1)).length) ∧
    (∀ (w : WorkerState) (inputs : List (Bool × CycleInput)),
      (worker_loop w inputs).1 =
        (worker_run w ((inputs.takeWhile (fun p => !p.1)).map Prod.snd)).1 ∧
      (worker_loop w inputs).2.1 =
        (worker_run w ((inputs.takeWhile (fun p => !p.1)).map Prod.snd)).2) := by
  refine ⟨?_, fun w inputs => (worker_loop_stop inputs w).1,
    fun w inputs => ⟨(worker_loop_stop inputs w).2.1,
      (worker_loop_stop inputs w).2.2⟩⟩
  intro w c w' r hvc hrun hok
  rcases volume_sync_cycle_spec w c.target c.now c.sp_some c.volCall c.fb with
    hskip | ⟨t, ht, hne, hsp, hle, hrl, hsucc | hfail⟩
  · exfalso
    have heq : ((w, none) : WorkerState × Option CallRec) = (w', some r) := by
      rw [← hskip]
      exact hrun
    simp [Prod.ext_iff] at heq
  · have heq : (({ w with last_synced_volume := some t, last_sync_time := c.now }, some (⟨c.now, t, true⟩ : CallRec)) : WorkerState × Option CallRec) = (w', some r) := by
      rw [← hsucc]
      exact hrun
    simp only [Prod.mk.injEq, Option.some.injEq] at heq
    rw [← heq.2] at hok
    simp at hok
  · have heq : ((w, some (⟨c.now, t, false⟩ : CallRec)) : WorkerState × Option CallRec) = (w', some r) := by
      rw [← hfail]
      exact hrun
    simp only [Prod.mk.injEq, Option.some.injEq] at heq
    exact heq.1.symm

/-- Witness for `c8_failure_and_stop` at a concrete failing cycle and a
concrete stop-flag sequence. -/
theorem c8_failure_and_stop_witness :
    workerInit = workerInit ∧
    (worker_loop workerInit
        [(false, ⟨1000, some 50, true, PyOutcome.otherExc,
          FallbackOutcome.fallThrough⟩),
         (true, ⟨2000, some 60, true, PyOutcome.ok,
          FallbackOutcome.fallThrough⟩)]).2.2 =
      ([(false, (⟨1000, some 50, true, PyOutcome.otherExc,
          FallbackOutcome.fallThrough⟩ : CycleInput)),
        (true, ⟨2000, some 60, true, PyOutcome.ok,
          FallbackOutcome.fallThrough⟩)].takeWhile (fun p => !p.1)).length :=
  ⟨c8_failure_and_stop.1 workerInit
      ⟨1000, some 50, true, PyOutcome.otherExc, FallbackOutcome.fallThrough⟩
      workerInit ⟨1000, 50, false⟩ (by decide) (by decide) rfl,
   c8_failure_and_stop.2.1 workerInit _⟩

/-- C2: the intended rate-limit handling is dead code.
`set_spotify_volume_api` catches the `SpotifyException` carrying
`http_status = 429` itself and returns `False`, so the worker's 429
handler never runs: after a rate-limit signal at `T = 1000` ms the
backoff register stays 0 and the worker issues another call at
`T + 300` ms, far inside `T + RATE_LIMIT_BACKOFF`. -/
theorem c2_rate_limit_never_triggers :
    set_spotify_volume_api true 50 (PyOutcome.spotifyExc (some 429))
        FallbackOutcome.fallThrough = CallResult.returned false ∧
    (worker_run workerInit
        [⟨1000, some 50, true, PyOutcome.spotifyExc (some 429),
          FallbackOutcome.fallThrough⟩,
         ⟨1300, some 50, true, PyOutcome.spotifyExc (some 429),
          FallbackOutcome.fallThrough⟩]).1.rate_limited_until = 0 ∧
    ((worker_run workerInit
        [⟨1000, some 50, true, PyOutcome.spotifyExc (some 429),
          FallbackOutcome.fallThrough⟩,
         ⟨1300, some 50, true, PyOutcome.spotifyExc (some 429),
          FallbackOutcome.fallThrough⟩]).2).map (fun r => r.time) =
      [1000, 1300] ∧
    1300 < 1000 + RATE_LIMIT_BACKOFF := by
  decide

/-- The throttle interval stays at or below `max_throttle_ms` along any
event sequence, provided it starts there. -/
lemma throttle_run_interval_le (p : ThrottleParams)
    (hle : p.initial_throttle_ms ≤ p.max_throttle_ms)
    (events : List ThrottleEvent) :
    ∀ s : ThrottleState,
      s.current_throttle_interval ≤ p.max_throttle_ms →
      (throttle_run p s events).current_throttle_interval ≤
        p.max_throttle_ms := by
  induction events with
  | nil => intro s hs; simpa [throttle_run] using hs
  | cons e es ih =>
    intro s hs
    cases e with
    | call now =>
      simp only [throttle_run]
      apply ih
      unfold wrapper_call
      split_ifs with h1 h2
      · exact hle
      · exact min_le_right _ _
      · exact hs
    | fire now =>
      simp only [throttle_run]
      apply ih
      by_cases hp : s.debounce_pending
      · simp only [hp, if_true]
        exact hs
      · simp only [hp]
        simpa using hs

/-- C9: the escalating throttle interval is reset to
`initial_throttle_ms` on the first call of a new interaction (gap since
the last execution above `first_call_threshold_ms`), is multiplied by
`backoff_factor` (capped at `max_throttle_ms`) after each
immediately-executed call within an ongoing interaction, and — whenever
`initial_throttle_ms ≤ max_throttle_ms`, as with the defaults 50 and
500 — never exceeds `max_throttle_ms` along any event sequence. -/
theorem c9_throttle_backoff :
    (∀ (p : ThrottleParams) (s : ThrottleState) (now : ℚ),
      p.first_call_threshold_ms < now - s.last_interaction_end_time →
      (wrapper_call p s now).1.current_throttle_interval =
        p.initial_throttle_ms ∧ (wrapper_call p s now).2 = true) ∧
    (∀ (p : ThrottleParams) (s : ThrottleState) (now : ℚ),
      ¬ p.first_call_threshold_ms < now - s.last_interaction_end_time →
      s.current_throttle_interval < now - s.last_call_time →
      (wrapper_call p s now).1.current_throttle_interval =
        min (s.current_throttle_interval * p.backoff_factor)
          p.max_throttle_ms ∧ (wrapper_call p s now).2 = true) ∧
    (∀ p : ThrottleParams, p.initial_throttle_ms ≤ p.max_throttle_ms →
      ∀ events : List ThrottleEvent,
        (throttle_run p (throttleInit p) events).current_throttle_interval ≤
          p.max_throttle_ms) := by
  refine ⟨?_, ?_, ?_⟩
  · intro p s now h
    simp [wrapper_call, h]
  · intro p s now h1 h2
    simp [wrapper_call, h1, h2]
  · intro p hle events
    exact throttle_run_interval_le p hle events (throttleInit p) hle

/-- Witness for `c9_throttle_backoff` at the source's default parameters
(`first_call_threshold_ms = 500`, `initial_throttle_ms = 50`,
`max_throttle_ms = 500`, `backoff_factor = 1.5`). -/
theorem c9_throttle_backoff_witness :
    ((wrapper_call ⟨200, 100, 500, 50, 500, 3/2⟩
        (throttleInit ⟨200, 100, 500, 50, 500, 3/2⟩)
        1000).1.current_throttle_interval = (50 : ℚ) ∧
      (wrapper_call ⟨200, 100, 500, 50, 500, 3/2⟩
        (throttleInit ⟨200, 100, 500, 50, 500, 3/2⟩) 1000).2 = true) ∧
    (throttle_run ⟨200, 100, 500, 50, 500, 3/2⟩
        (throttleInit ⟨200, 100, 500, 50, 500, 3/2⟩)
        [ThrottleEvent.call 1000,
         ThrottleEvent.call 1100]).current_throttle_interval ≤ (500 : ℚ) :=
  ⟨c9_throttle_backoff.1 ⟨200, 100, 500, 50, 500, 3/2⟩ _ 1000
      (by norm_num [throttleInit]),
   c9_throttle_backoff.2.2 ⟨200, 100, 500, 50, 500, 3/2⟩ (by norm_num) _⟩

/-- One latch step either ends latched or leaves the input state
untouched. -/
lemma latch_step_latched_or_id (s : InputState) (v : ℕ) :
    (latch_step s v).1.is_latched = true ∨ (latch_step s v).1 = s := by
  unfold latch_step
  by_cases hl : s.is_latched = false
  · rw [if_pos hl]
    cases ha : s.actual_app_volume_on_connect with
    | none => left; rfl
    | some r =>
      dsimp only
      by_cases htol :
          Int.natAbs ((v : ℤ) - (r : ℤ)) ≤ LATCH_TOLERANCE_PERCENT
      · rw [if_pos htol]
        left
        rfl
      · rw [if_neg htol]
        right
        rfl
  · rw [if_neg hl]
    left
    have hb : s.is_latched = true := by
      cases hx : s.is_latched
      · exact absurd hx hl
      · rfl
    simp [set_volume, hb]

/-- The callback `midi_callback` never emits an actuator set-volume call: the input
path only writes the register. -/
lemma midi_callback_no_api_call (s : InputState) (mt note vel v : ℕ) :
    Effect.setVolumeApiCall v ∉ (midi_callback s mt note vel).2 := by
  unfold midi_callback
  split_ifs <;> simp

/-- A non-reconnect system step either ends with the input latched or
leaves the input state untouched; and whenever it emits a set-volume
call, the register was set before the step and the input state is
untouched by the step. -/
lemma sys_step_no_reconnect (s : SysState) (e : SysEvent)
    (hnr : is_reconnect e = false) :
    ((sys_step s e).1.input.is_latched = true ∨
      (sys_step s e).1.input = s.input) ∧
    (∀ v, Effect.setVolumeApiCall v ∈ (sys_step s e).2 →
      s.input.target_volume ≠ none ∧ (sys_step s e).1.input = s.input) := by
  cases e with
  | midi mt note vel =>
    constructor
    · by_cases h176 : mt = 176
      · rcases latch_step_latched_or_id s.input (remote_value_percent vel) with
          h | h
        · left
          show (midi_callback s.input mt note vel).1.is_latched = true
          unfold midi_callback
          rw [if_pos h176]
          exact h
        · right
          show (midi_callback s.input mt note vel).1 = s.input
          unfold midi_callback
          rw [if_pos h176]
          exact h
      · right
        show (midi_callback s.input mt note vel).1 = s.input
        unfold midi_callback
        rw [if_neg h176]
        split_ifs <;> rfl
    · intro v hv
      exact absurd hv (midi_callback_no_api_call s.input mt note vel v)
  | cycle now sp_some volCall fb =>
    constructor
    · right
      rfl
    · intro v hv
      rcases volume_sync_cycle_spec s.worker s.input.target_volume now
          sp_some volCall fb with hskip | ⟨t, ht, _, _, _, _, _⟩
      · exfalso
        have heff : (sys_step s (SysEvent.cycle now sp_some volCall fb)).2 = [] := by
          simp [sys_step, hskip]
        rw [heff] at hv
        simp at hv
      · refine ⟨?_, rfl⟩
        rw [ht]
        simp
  | reconnect ss ms => simp [is_reconnect] at hnr

/-- Along any trace of non-reconnect events: latching is monotone, the
invariant "register set implies latched" is preserved, and whenever a
set-volume call is emitted the final state is latched. -/
lemma sys_run_call_latched (events : List SysEvent) :
    ∀ s : SysState,
      (∀ e ∈ events, is_reconnect e = false) →
      (s.input.target_volume ≠ none → s.input.is_latched = true) →
      (s.input.is_latched = true →
        (sys_run s events).1.input.is_latched = true) ∧
      (∀ v, Effect.setVolumeApiCall v ∈ (sys_run s events).2 →
        (sys_run s events).1.input.is_latched = true) := by
  induction events with
  | nil =>
    intro s _ _
    constructor
    · intro h
      simpa [sys_run] using h
    · intro v hv
      simp [sys_run] at hv
  | cons e es ih =>
    intro s hnr hinv
    have hnr0 : is_reconnect e = false := hnr e (List.mem_cons_self _ _)
    have hnr' : ∀ e' ∈ es, is_reconnect e' = false :=
      fun e' he' => hnr e' (List.mem_cons_of_mem _ he')
    have hstep := sys_step_no_reconnect s e hnr0
    have hinv' : (sys_step s e).1.input.target_volume ≠ none →
        (sys_step s e).1.input.is_latched = true := by
      rcases hstep.1 with h | h
      · intro _
        exact h
      · rw [h]
        exact hinv
    have ih' := ih (sys_step s e).1 hnr' hinv'
    have hrun : sys_run s (e :: es) =
        ((sys_run (sys_step s e).1 es).1,
         (sys_step s e).2 ++ (sys_run (sys_step s e).1 es).2) := rfl
    rw [hrun]
    constructor
    · intro hl
      apply ih'.1
      rcases hstep.1 with h | h
      · exact h
      · rw [h]
        exact hl
    · intro v hv
      rcases List.mem_append.mp hv with h1 | h2
      · have hcall := hstep.2 v h1
        apply ih'.1
        rw [hcall.2]
        exact hinv hcall.1
      · exact ih'.2 v h2

/-- While the connection is unlatched with reference `r`, the register
unset, and every CC reading outside tolerance, the system emits no
set-volume call and stays unlatched. -/
lemma sys_run_unlatched_no_call (events : List SysEvent) :
    ∀ (s : SysState) (r : ℕ),
      s.input.actual_app_volume_on_connect = some r →
      s.input.is_latched = false →
      s.input.target_volume = none →
      (∀ e ∈ events,
        match e with
        | SysEvent.midi mt _ vel => mt = 176 →
            LATCH_TOLERANCE_PERCENT <
              Int.natAbs ((remote_value_percent vel : ℤ) - (r : ℤ))
        | SysEvent.cycle _ _ _ _ => True
        | SysEvent.reconnect _ _ => False) →
      (∀ v, Effect.setVolumeApiCall v ∉ (sys_run s events).2) ∧
      (sys_run s events).1.input.is_latched = false := by
  induction events with
  | nil =>
    intro s r _ hl _ _
    constructor
    · intro v hv
      simp [sys_run] at hv
    · simpa [sys_run] using hl
  | cons e es ih =>
    intro s r ha hl ht hsafe
    have hsafe0 := hsafe e (List.mem_cons_self _ _)
    have hsafe' := fun e' he' => hsafe e' (List.mem_cons_of_mem _ he')
    have hkey : ((sys_step s e).1.input = s.input) ∧
        (∀ v, Effect.setVolumeApiCall v ∉ (sys_step s e).2) := by
      cases e with
      | midi mt note vel =>
        constructor
        · show (midi_callback s.input mt note vel).1 = s.input
          by_cases h176 : mt = 176
          · have htol := hsafe0 h176
            unfold midi_callback
            rw [if_pos h176]
            simp [latch_step, hl, ha, Nat.not_le.mpr htol]
          · unfold midi_callback
            rw [if_neg h176]
            split_ifs <;> rfl
        · intro v
          exact midi_callback_no_api_call s.input mt note vel v
      | cycle now sp_some volCall fb =>
        refine ⟨rfl, ?_⟩
        intro v hv
        rcases volume_sync_cycle_spec s.worker s.input.target_volume now
            sp_some volCall fb with hskip | ⟨t, htg, _⟩
        · have heff : (sys_step s (SysEvent.cycle now sp_some volCall fb)).2 = [] := by
            simp [sys_step, hskip]
          rw [heff] at hv
          simp at hv
        · rw [ht] at htg
          cases htg
      | reconnect ss ms => exact hsafe0.elim
    have ih' := ih (sys_step s e).1 r (by rw [hkey.1]; exact ha)
      (by rw [hkey.1]; exact hl) (by rw [hkey.1]; exact ht) hsafe'
    have hrun : sys_run s (e :: es) =
        ((sys_run (sys_step s e).1 es).1,
         (sys_step s e).2 ++ (sys_run (sys_step s e).1 es).2) := rfl
    rw [hrun]
    constructor
    · intro v hv
      rcases List.mem_append.mp hv with h1 | h2
      · exact hkey.2 v h1
      · exact ih'.1 v h2
    · exact ih'.2

/-- C1 fails on the code across a reconnection: connection 1 latches at
38% and syncs it; after the MIDI port reopens, `is_latched` is reset but
the stale target 38 stays in the register, and the freshly started
worker (whose `last_synced_volume` is `None`) issues a set-volume call
while the new connection is still unlatched and has received no reading
at all. -/
theorem c1_counterexample :
    (sys_run programInit
        [SysEvent.reconnect (some 40) none,
         SysEvent.midi 176 0 49,
         SysEvent.cycle 1000 true PyOutcome.ok FallbackOutcome.fallThrough,
         SysEvent.reconnect (some 60) none]).1.input.is_latched = false ∧
    (sys_step (sys_run programInit
        [SysEvent.reconnect (some 40) none,
         SysEvent.midi 176 0 49,
         SysEvent.cycle 1000 true PyOutcome.ok FallbackOutcome.fallThrough,
         SysEvent.reconnect (some 60) none]).1
      (SysEvent.cycle 2000 true PyOutcome.ok FallbackOutcome.fallThrough)).2 =
      [Effect.setVolumeApiCall 38] := by
  decide

/-- C1 amended: within any connection whose target register starts unset
(in particular the first connection of a program run), no set-volume call
is ever issued before `is_latched` is true; in particular, if every CC
reading while unlatched is outside tolerance of the reference volume,
no set-volume call is issued at all.  After a reconnection a stale
target from the prior connection may be re-sent while unlatched. -/
theorem c1_latch_gates_calls :
    (∀ (ref : Option ℕ) (events : List SysEvent),
      (∀ e ∈ events, is_reconnect e = false) →
      ∀ v, Effect.setVolumeApiCall v ∈ (sys_run (freshConn ref) events).2 →
        (sys_run (freshConn ref) events).1.input.is_latched = true) ∧
    (∀ (r : ℕ) (events : List SysEvent),
      (∀ e ∈ events,
        match e with
        | SysEvent.midi mt _ vel => mt = 176 →
            LATCH_TOLERANCE_PERCENT <
              Int.natAbs ((remote_value_percent vel : ℤ) - (r : ℤ))
        | SysEvent.cycle _ _ _ _ => True
        | SysEvent.reconnect _ _ => False) →
      ∀ v, Effect.setVolumeApiCall v ∉
        (sys_run (freshConn (some r)) events).2) := by
  constructor
  · intro ref events hnr v hv
    have h := sys_run_call_latched events (freshConn ref) hnr
      (fun h => absurd rfl h)
    exact h.2 v hv
  · intro r events hsafe v
    exact (sys_run_unlatched_no_call events (freshConn (some r)) r
      rfl rfl rfl hsafe).1 v

/-- Witness for `c1_latch_gates_calls`: a latching trace whose call ends
latched, and an out-of-tolerance trace that issues no call. -/
theorem c1_latch_gates_calls_witness :
    (sys_run (freshConn (some 40))
        [SysEvent.midi 176 0 49,
         SysEvent.cycle 1000 true PyOutcome.ok
           FallbackOutcome.fallThrough]).1.input.is_latched = true ∧
    Effect.setVolumeApiCall 50 ∉
      (sys_run (freshConn (some 40))
        [SysEvent.midi 176 0 64,
         SysEvent.cycle 1000 true PyOutcome.ok
           FallbackOutcome.fallThrough]).2 :=
  ⟨c1_latch_gates_calls.1 (some 40) _ (by decide) 38 (by decide),
   c1_latch_gates_calls.2 40 _ (by intro e he; fin_cases he <;> decide) 50⟩

end Orthocontrol
